import Mathlib

/-
Verification development for the unms-to-zabbix-sync repository.

The two source files are shallowly embedded as pure Lean functions:

- src/check_host_in_zbx_by_ip.py : the IP dictionary build, the row tagging
  loop and the top level routine check_ips_in_zabbix.  External effects
  (file existence, pandas read_excel, the Zabbix API interaction at lines
  63-72, pandas to_excel) are modelled as Except valued fields of a World
  structure; the routine becomes a total function from World to a RunResult
  recording the boolean return value, the log lines emitted, whether the
  remote system was contacted, and the data frame written (if any).
- src/sync.py : get_unms_devices (the HTTP outcome is an Except valued
  oracle keyed by the requested endpoint) and extract_device_data (JSON
  values as an inductive type; the Python dict.get method, which raises
  AttributeError on a non dict receiver, returns in the Except monad).

Spreadsheet cells are modelled as the strings they convert to under str();
the Python str.strip method is modelled by pyStrip below.
-/

/-- Whitespace in the sense of the Python str.strip default. -/
def pyIsSpace (c : Char) : Bool :=
  c = ' ' || c = '\t' || c = '\n' || c = '\r' || c = '\x0b' || c = '\x0c'

/-- Python str.strip: drop whitespace from both ends of the string. -/
def pyStrip (s : String) : String :=
  ⟨(((s.data.dropWhile pyIsSpace).reverse.dropWhile pyIsSpace).reverse : List Char)⟩

/-- Row models one spreadsheet row as an association list from column name
to cell value, in column order. -/
abbrev Row := List (String × String)

/-- Reading a cell: first matching column, empty string when the column is
absent (the source only reads columns it has checked or created). -/
def rowGet : Row → String → String
  | [], _ => ""
  | p :: rest, key => if p.1 = key then p.2 else rowGet rest key

/-- Writing a cell in place, as pandas df.at does for an existing column:
every entry under the given column name receives the new value. -/
def rowSet (r : Row) (key val : String) : Row :=
  r.map (fun p => if p.1 = key then (p.1, val) else p)

/-- Column names present in a row. -/
def rowKeys (r : Row) : List String := r.map Prod.fst

/-- DataFrame models the pandas frame: a column list plus the data rows. -/
structure DataFrame where
  columns : List String
  rows : List Row
  deriving DecidableEq

/-- IpDict models the Python dict built at lines 75-81: lookup is by exact
string key, and assignment overwrites, so a function to Option String is the
faithful rendering (later assignments shadow earlier ones). -/
abbrev IpDict := String → Option String

def emptyDict : IpDict := fun _ => none

/-- Assignment ip_dict[k] = v of the source, line 81. -/
def dictInsert (d : IpDict) (k v : String) : IpDict :=
  fun key => if key = k then some v else d key

/-- Interface models one Zabbix interface record; ip is none when the key
is absent. -/
structure Interface where
  ip : Option String
  deriving DecidableEq

/-- Host models one Zabbix host record; interfaces is none when the key is
absent. -/
structure Host where
  host : String
  interfaces : Option (List Interface)
  deriving DecidableEq

/-- Body of the inner loop at lines 79-81: record the interface IP when the
ip key is present and truthy (non empty). -/
def addInterface (hostName : String) (d : IpDict) (i : Interface) : IpDict :=
  match i.ip with
  | some ipv => if ipv ≠ "" then dictInsert d ipv hostName else d
  | none => d

/-- Body of the outer loop at lines 76-81: the interfaces key must be
present and truthy (a non empty list) before the inner loop runs. -/
def addHost (d : IpDict) (h : Host) : IpDict :=
  match h.interfaces with
  | some l => if l.isEmpty then d else l.foldl (addInterface h.host) d
  | none => d

/-- Dictionary build of lines 75-81. -/
def buildIpDict (hosts : List Host) : IpDict :=
  hosts.foldl addHost emptyDict

/-- Decidable check that a host carries the given IP on some interface. -/
def hostHasIpB (h : Host) (s : String) : Bool :=
  match h.interfaces with
  | some l => l.any (fun i => i.ip == some s)
  | none => false

/-- Body of the tagging loop at lines 87-96: strip the ip_address cell; if
non empty, tag the zabbix cell with membership; otherwise leave the row
untouched. -/
def tagRow (d : IpDict) (r : Row) : Row :=
  let ip := pyStrip (rowGet r "ip_address")
  if ip ≠ "" then
    if (d ip).isSome then rowSet r "zabbix" "exist"
    else rowSet r "zabbix" "not exist"
  else r

/-- Lines 53-54: create the zabbix column, filled with empty strings, when
it is absent. -/
def ensureZabbix (df : DataFrame) : DataFrame :=
  if "zabbix" ∈ df.columns then df
  else ⟨df.columns ++ ["zabbix"], df.rows.map (fun r => r ++ [("zabbix", "")])⟩

/-- Tagging loop of lines 86-96 over the whole frame.  Each iteration only
writes the zabbix cell of the current row, so a map over rows is faithful. -/
def tagRows (d : IpDict) (df : DataFrame) : DataFrame :=
  ⟨df.columns, df.rows.map (tagRow d)⟩

/-- Lines 52-96 as one pass: create the zabbix column if needed, then tag. -/
def tagPass (d : IpDict) (df : DataFrame) : DataFrame :=
  tagRows d (ensureZabbix df)

/-- Number of rows tagged exist, as counted by update_count in the loop. -/
def update_count (d : IpDict) (rows : List Row) : Nat :=
  rows.countP (fun r =>
    (pyStrip (rowGet r "ip_address") != "") && (d (pyStrip (rowGet r "ip_address"))).isSome)


/-! Helper lemmas about rows. -/

theorem rowGet_rowSet_self (r : Row) (key val : String) (h : key ∈ rowKeys r) :
    rowGet (rowSet r key val) key = val := by
  induction r with
  | nil => simp [rowKeys] at h
  | cons p rest ih =>
    by_cases hk : p.1 = key
    · simp [rowSet, rowGet, hk]
    · simp [rowKeys] at h
      rcases h with h | h
      · exact absurd h.symm hk
      · simpa [rowSet, rowGet, hk] using ih (by simpa [rowKeys] using h)

theorem rowGet_rowSet_ne (r : Row) (key val k : String) (h : k ≠ key) :
    rowGet (rowSet r key val) k = rowGet r k := by
  induction r with
  | nil => rfl
  | cons p rest ih =>
    by_cases hk : p.1 = key
    · simp [rowSet, rowGet, hk, Ne.symm h] at ih ⊢
      exact ih
    · simp [rowSet, rowGet, hk] at ih ⊢
      by_cases hpk : p.1 = k
      · simp [hpk]
      · simp [hpk]
        exact ih

theorem rowGet_append_zabbix (r : Row) (k : String) (h : k ≠ "zabbix") :
    rowGet (r ++ [("zabbix", "")]) k = rowGet r k := by
  induction r with
  | nil => simp [rowGet, Ne.symm h]
  | cons p rest ih =>
    by_cases hk : p.1 = k
    · simp [rowGet, hk]
    · simp [rowGet, hk, ih]

/-! Helper lemmas about the IP dictionary build. -/

theorem foldIfaces_preserve (name ip : String) (l : List Interface) (d : IpDict)
    (h : ∀ i ∈ l, i.ip ≠ some ip) :
    (l.foldl (addInterface name) d) ip = d ip := by
  induction l generalizing d with
  | nil => rfl
  | cons x xs ih =>
    rw [List.foldl_cons, ih _ (fun i hi => h i (List.mem_cons_of_mem _ hi))]
    have hx := h x (List.mem_cons_self _ _)
    cases hxi : x.ip with
    | none => simp [addInterface, hxi]
    | some ipv =>
      by_cases hv : ipv = ""
      · simp [addInterface, hxi, hv]
      · have hne : ip ≠ ipv := by
          intro e
          exact hx (by rw [hxi, e])
        simp [addInterface, hxi, hv, dictInsert, hne]

theorem foldIfaces_sets (name ip : String) (l : List Interface) (d : IpDict)
    (hip : ip ≠ "") (h : l.any (fun i => i.ip == some ip) = true) :
    (l.foldl (addInterface name) d) ip = some name := by
  induction l generalizing d with
  | nil => simp at h
  | cons x xs ih =>
    rw [List.foldl_cons]
    by_cases hxs : xs.any (fun i => i.ip == some ip) = true
    · exact ih _ hxs
    · have hx : x.ip = some ip := by
        simp only [List.any_cons, Bool.or_eq_true] at h
        rcases h with h | h
        · exact eq_of_beq h
        · exact absurd h hxs
      have hrest : ∀ i ∈ xs, i.ip ≠ some ip := by
        intro i hi he
        exact hxs (List.any_eq_true.mpr ⟨i, hi, by simp [he]⟩)
      rw [foldIfaces_preserve name ip xs _ hrest]
      simp [addInterface, hx, hip, dictInsert]

theorem addHost_sets (d : IpDict) (h : Host) (ip : String)
    (hip : ip ≠ "") (hh : hostHasIpB h ip = true) :
    addHost d h ip = some h.host := by
  unfold hostHasIpB at hh
  cases hi : h.interfaces with
  | none => rw [hi] at hh; simp at hh
  | some l =>
    rw [hi] at hh
    have hne : l.isEmpty = false := by
      cases l with
      | nil => simp at hh
      | cons a as => rfl
    simp only [addHost, hi, hne, Bool.false_eq_true, if_false]
    exact foldIfaces_sets h.host ip l d hip hh

theorem addHost_preserve (d : IpDict) (h : Host) (ip : String)
    (_hip : ip ≠ "") (hh : hostHasIpB h ip = false) :
    addHost d h ip = d ip := by
  unfold hostHasIpB at hh
  cases hi : h.interfaces with
  | none => simp [addHost, hi]
  | some l =>
    rw [hi] at hh
    by_cases he : l.isEmpty
    · simp [addHost, hi, he]
    · simp only [addHost, hi, Bool.of_not_eq_true he, Bool.false_eq_true, if_false]
      refine foldIfaces_preserve h.host ip l d ?_
      intro i hi2 hie
      have hh2 : (l.any fun i => i.ip == some ip) = false := hh
      have : l.any (fun i => i.ip == some ip) = true :=
        List.any_eq_true.mpr ⟨i, hi2, by simp [hie]⟩
      rw [this] at hh2
      exact absurd hh2 (by simp)

theorem foldHosts_preserve (post : List Host) (d : IpDict) (ip : String)
    (hip : ip ≠ "") (h : ∀ h2 ∈ post, hostHasIpB h2 ip = false) :
    (post.foldl addHost d) ip = d ip := by
  induction post generalizing d with
  | nil => rfl
  | cons x xs ih =>
    rw [List.foldl_cons, ih _ (fun h2 hh2 => h h2 (List.mem_cons_of_mem _ hh2))]
    exact addHost_preserve d x ip hip (h x (List.mem_cons_self _ _))

/-- C2: the index build records every non empty interface IP, and when the
same IP occurs on several host or interface records, the index maps it to
the last encountered host in iteration order (last write wins, no conflict
detection): decomposing the host list around the last host carrying the IP,
the built dictionary returns exactly that host identity. -/
theorem c2_last_write_wins (pre post : List Host) (h : Host) (ip : String)
    (hip : ip ≠ "") (hh : hostHasIpB h ip = true)
    (hpost : ∀ h2 ∈ post, hostHasIpB h2 ip = false) :
    buildIpDict (pre ++ h :: post) ip = some h.host := by
  unfold buildIpDict
  rw [List.foldl_append, List.foldl_cons]
  rw [foldHosts_preserve post _ ip hip hpost]
  exact addHost_sets _ h ip hip hh

/-- Witness for C2 at a concrete host list: hosts A and B both carry
10.0.0.1 and B comes later, so the index maps 10.0.0.1 to B. -/
theorem c2_last_write_wins_witness :
    buildIpDict
      [⟨"A", some [⟨some "10.0.0.1"⟩]⟩,
       ⟨"B", some [⟨some "10.0.0.1"⟩]⟩,
       ⟨"C", some [⟨some "10.0.0.9"⟩]⟩] "10.0.0.1" = some "B" :=
  c2_last_write_wins [⟨"A", some [⟨some "10.0.0.1"⟩]⟩]
    [⟨"C", some [⟨some "10.0.0.9"⟩]⟩] ⟨"B", some [⟨some "10.0.0.1"⟩]⟩
    "10.0.0.1" (by decide) (by decide) (by decide)


/-- C1: tagging rule for one row of the loop at lines 86-96.  When the
stripped ip_address cell is non empty and a key of the index, the zabbix
cell becomes exist; when it is non empty and not a key, it becomes not
exist; when it is empty the row is returned unmodified. -/
theorem c1_tag_rule (d : IpDict) (r : Row) (hz : "zabbix" ∈ rowKeys r) :
    (pyStrip (rowGet r "ip_address") ≠ "" →
       (d (pyStrip (rowGet r "ip_address"))).isSome = true →
       rowGet (tagRow d r) "zabbix" = "exist") ∧
    (pyStrip (rowGet r "ip_address") ≠ "" →
       (d (pyStrip (rowGet r "ip_address"))).isSome = false →
       rowGet (tagRow d r) "zabbix" = "not exist") ∧
    (pyStrip (rowGet r "ip_address") = "" → tagRow d r = r) := by
  refine ⟨?_, ?_, ?_⟩
  · intro hne hmem
    simp [tagRow, hne, hmem]
    exact rowGet_rowSet_self r "zabbix" "exist" hz
  · intro hne hmem
    simp [tagRow, hne, hmem]
    exact rowGet_rowSet_self r "zabbix" "not exist" hz
  · intro he
    simp [tagRow, he]

/-- Witness for C1: a row whose padded ip_address strips to a key of the
index is tagged exist. -/
theorem c1_tag_rule_witness :
    rowGet (tagRow (dictInsert emptyDict "10.0.0.1" "hostA")
      [("ip_address", " 10.0.0.1 "), ("zabbix", "")]) "zabbix" = "exist" :=
  (c1_tag_rule (dictInsert emptyDict "10.0.0.1" "hostA")
      [("ip_address", " 10.0.0.1 "), ("zabbix", "")] (by decide)).1
    (by decide) (by decide)

/-! Helper lemmas about the tagging pass as a whole. -/

theorem tagRow_preserves_other (d : IpDict) (r : Row) (k : String) (h : k ≠ "zabbix") :
    rowGet (tagRow d r) k = rowGet r k := by
  by_cases hne : pyStrip (rowGet r "ip_address") = ""
  · simp [tagRow, hne]
  · by_cases hm : (d (pyStrip (rowGet r "ip_address"))).isSome
    · simp [tagRow, hne, hm, rowGet_rowSet_ne r "zabbix" _ k h]
    · simp [tagRow, hne, hm, rowGet_rowSet_ne r "zabbix" _ k h]

theorem rowsGetD_map (f : Row → Row) (l : List Row) (i : Nat) (hi : i < l.length) :
    (l.map f).getD i [] = f (l.getD i []) := by
  induction l generalizing i with
  | nil => simp at hi
  | cons x xs ih =>
    cases i with
    | zero => simp
    | succ n =>
      simp only [List.map_cons, List.getD_cons_succ]
      exact ih n (by simpa using hi)

/-- C8: frame property of the pass at lines 52-100.  The written frame has
exactly the input rows in input order (same length, row i derived from row
i), and in every row each cell outside the zabbix column is unchanged. -/
theorem c8_frame (d : IpDict) (df : DataFrame) :
    (tagPass d df).rows.length = df.rows.length ∧
    (∀ i : Nat, i < df.rows.length → ∀ k : String, k ≠ "zabbix" →
      rowGet ((tagPass d df).rows.getD i []) k = rowGet (df.rows.getD i []) k) := by
  by_cases hz : "zabbix" ∈ df.columns
  · refine ⟨by simp [tagPass, tagRows, ensureZabbix, hz], ?_⟩
    intro i hi k hk
    simp only [tagPass, tagRows, ensureZabbix, hz, if_pos]
    rw [rowsGetD_map (tagRow d) df.rows i hi]
    exact tagRow_preserves_other d _ k hk
  · refine ⟨by simp [tagPass, tagRows, ensureZabbix, hz], ?_⟩
    intro i hi k hk
    have hrows : (tagPass d df).rows
        = df.rows.map (fun r => tagRow d (r ++ [("zabbix", "")])) := by
      simp [tagPass, tagRows, ensureZabbix, hz, List.map_map, Function.comp]
    rw [hrows, rowsGetD_map _ df.rows i hi, tagRow_preserves_other d _ k hk,
        rowGet_append_zabbix _ k hk]

/-- Witness for C8: in a one row frame the ip_address cell survives the
pass unchanged. -/
theorem c8_frame_witness :
    rowGet ((tagPass (dictInsert emptyDict "10.0.0.1" "hostA")
        ⟨["ip_address"], [[("ip_address", "10.0.0.1")]]⟩).rows.getD 0 []) "ip_address" =
      rowGet ((⟨["ip_address"], [[("ip_address", "10.0.0.1")]]⟩ : DataFrame).rows.getD 0 [])
        "ip_address" :=
  (c8_frame (dictInsert emptyDict "10.0.0.1" "hostA")
      ⟨["ip_address"], [[("ip_address", "10.0.0.1")]]⟩).2 0 (by decide)
    "ip_address" (by decide)

theorem rowSet_rowSet (r : Row) (key v w : String) :
    rowSet (rowSet r key v) key w = rowSet r key w := by
  induction r with
  | nil => rfl
  | cons p rest ih =>
    by_cases hk : p.1 = key
    · simpa [rowSet, hk] using ih
    · simpa [rowSet, hk] using ih

theorem tagRow_idem (d : IpDict) (r : Row) : tagRow d (tagRow d r) = tagRow d r := by
  by_cases hne : pyStrip (rowGet r "ip_address") = ""
  · have h1 : tagRow d r = r := by simp [tagRow, hne]
    rw [h1]
    exact h1
  · have hips : ∀ v, rowGet (rowSet r "zabbix" v) "ip_address" = rowGet r "ip_address" :=
      fun v => rowGet_rowSet_ne r "zabbix" v "ip_address" (by decide)
    by_cases hm : (d (pyStrip (rowGet r "ip_address"))).isSome = true
    · have h1 : tagRow d r = rowSet r "zabbix" "exist" := by simp [tagRow, hne, hm]
      rw [h1]
      simp [tagRow, hips, hne, hm, rowSet_rowSet]
    · have h1 : tagRow d r = rowSet r "zabbix" "not exist" := by simp [tagRow, hne, hm]
      rw [h1]
      simp [tagRow, hips, hne, hm, rowSet_rowSet]

/-- C10: the pass of lines 52-96 (create the zabbix column if absent, then
tag every row against a fixed index) is idempotent: running it twice yields
exactly the frame produced by running it once. -/
theorem c10_idempotent (d : IpDict) (df : DataFrame) :
    tagPass d (tagPass d df) = tagPass d df := by
  have hz : "zabbix" ∈ (tagPass d df).columns := by
    by_cases h : "zabbix" ∈ df.columns <;>
      simp [tagPass, tagRows, ensureZabbix, h]
  have hmm : ∀ l : List Row, (l.map (tagRow d)).map (tagRow d) = l.map (tagRow d) := by
    intro l
    induction l with
    | nil => rfl
    | cons x xs ih => simp [tagRow_idem, ih]
  show tagRows d (ensureZabbix (tagPass d df)) = tagPass d df
  rw [ensureZabbix, if_pos hz]
  simp only [tagPass, tagRows, hmm]

/-! Embedding of the top level routine check_ips_in_zabbix (lines 31-106).
External effects are inputs (a World); the routine is a total function to a
RunResult.  Totality of the Lean function renders the source try/except that
spans the whole body: every exception of an external operation is carried as
the error branch of an Except value and becomes a logged error plus a false
return, never a propagated exception.  Log lines keep the constant text of
the source f-strings; interpolated values that depend on unmodelled state
(the timestamped output filename, the API version text inside other info
lines) are dropped from info lines, which no claim inspects.  Debug lines
are omitted: the configured level is INFO, so they are never emitted. -/

inductive LogLevel where
  | info
  | error
  deriving DecidableEq

/-- ParsedURL models the result of urllib.parse.urlparse on the configured
URL (urlparse is standard library code, so its output is taken as input). -/
structure ParsedURL where
  scheme : String
  netloc : String

/-- Lines 22-28: all([result.scheme, result.netloc]) is true exactly when
both strings are non empty (Python truthiness of strings). -/
def validate_zabbix_url (u : ParsedURL) : Bool :=
  u.scheme != "" && u.netloc != ""

/-- World bundles the outcomes of the external operations the routine
performs: os.path.exists, pandas read_excel, urlparse of the URL, the
Zabbix API interaction of lines 63-72 (connect, login, api_version,
host.get, collapsed into one outcome), and pandas to_excel.  An error
value models the operation raising an exception with that message. -/
structure World where
  fileExists : Bool
  readExcel : Except String DataFrame
  parsedUrl : ParsedURL
  hostsGet : Except String (List Host)
  writeExcel : Except String Unit

/-- RunResult records the boolean return value, the log lines, whether
the remote Zabbix system was contacted, and the frame written (if any). -/
structure RunResult where
  ret : Bool
  logs : List (LogLevel × String)
  remoteCalled : Bool
  output : Option DataFrame

/-- Lines 31-106 of src/check_host_in_zbx_by_ip.py. -/
def check_ips_in_zabbix (excel_file zabbix_url : String) (w : World) : RunResult :=
  if !w.fileExists then
    ⟨false, [(LogLevel.error, "File " ++ excel_file ++ " does not exist.")], false, none⟩
  else
    let logs0 := [(LogLevel.info, "Reading data from " ++ excel_file)]
    match w.readExcel with
    | Except.error e =>
        ⟨false, logs0 ++ [(LogLevel.error, "Error processing file: " ++ e)], false, none⟩
    | Except.ok df0 =>
      if "ip_address" ∈ df0.columns then
        let df1 := ensureZabbix df0
        if validate_zabbix_url w.parsedUrl then
          let logs1 := logs0 ++
            [(LogLevel.info, "Connecting to Zabbix API at " ++ zabbix_url)]
          match w.hostsGet with
          | Except.error e =>
              ⟨false, logs1 ++ [(LogLevel.error, "Error processing file: " ++ e)],
                true, none⟩
          | Except.ok hosts =>
            let d := buildIpDict hosts
            let logs2 := logs1 ++
              [(LogLevel.info, "Connected to Zabbix API version"),
               (LogLevel.info, "Retrieving hosts from Zabbix"),
               (LogLevel.info, "Retrieved unique IP addresses from Zabbix"),
               (LogLevel.info, "Saving results to new file")]
            let df2 := tagRows d df1
            match w.writeExcel with
            | Except.error e =>
                ⟨false, logs2 ++ [(LogLevel.error, "Error processing file: " ++ e)],
                  true, none⟩
            | Except.ok _ =>
                ⟨true, logs2 ++
                  [(LogLevel.info, "Results saved successfully with "
                      ++ toString (update_count d df1.rows) ++ " matched IPs")],
                  true, some df2⟩
        else
          ⟨false, logs0 ++ [(LogLevel.error, "Invalid Zabbix URL: " ++ zabbix_url)],
            false, none⟩
      else
        ⟨false, logs0 ++
          [(LogLevel.error, "Column \x27ip_address\x27 not found in the Excel file.")],
          false, none⟩

/-- C3: when the configured URL parses without a scheme or without a
network location, the routine returns False, logs an error, contacts no
remote system, and writes no output frame. -/
theorem c3_bad_url (excel_file zabbix_url : String) (w : World)
    (h : w.parsedUrl.scheme = "" ∨ w.parsedUrl.netloc = "") :
    (check_ips_in_zabbix excel_file zabbix_url w).ret = false ∧
    (check_ips_in_zabbix excel_file zabbix_url w).remoteCalled = false ∧
    (check_ips_in_zabbix excel_file zabbix_url w).output = none ∧
    ∃ m, (LogLevel.error, m) ∈ (check_ips_in_zabbix excel_file zabbix_url w).logs := by
  have hv : validate_zabbix_url w.parsedUrl = false := by
    rcases h with h | h <;> simp [validate_zabbix_url, h]
  unfold check_ips_in_zabbix
  cases hf : w.fileExists with
  | false =>
    refine ⟨by simp, by simp, by simp, "File " ++ excel_file ++ " does not exist.", by simp⟩
  | true =>
    cases hr : w.readExcel with
    | error e =>
      refine ⟨by simp, by simp, by simp, "Error processing file: " ++ e, by simp⟩
    | ok df0 =>
      by_cases hc : "ip_address" ∈ df0.columns
      · simp only [hc, if_true, hv, Bool.false_eq_true, if_false]
        refine ⟨by simp, by simp, by simp, "Invalid Zabbix URL: " ++ zabbix_url, by simp⟩
      · simp only [hc, if_false]
        refine ⟨by simp, by simp, by simp,
          "Column \x27ip_address\x27 not found in the Excel file.", by simp [hc]⟩

/-- Witness for C3: a world with a URL lacking a scheme fails before any
remote call and writes nothing. -/
theorem c3_bad_url_witness :
    (check_ips_in_zabbix "f.xlsx" "server.local"
        ⟨true, Except.ok ⟨["ip_address"], []⟩, ⟨"", "server.local"⟩,
         Except.ok [], Except.ok ()⟩).ret = false ∧
    (check_ips_in_zabbix "f.xlsx" "server.local"
        ⟨true, Except.ok ⟨["ip_address"], []⟩, ⟨"", "server.local"⟩,
         Except.ok [], Except.ok ()⟩).remoteCalled = false ∧
    (check_ips_in_zabbix "f.xlsx" "server.local"
        ⟨true, Except.ok ⟨["ip_address"], []⟩, ⟨"", "server.local"⟩,
         Except.ok [], Except.ok ()⟩).output = none ∧
    ∃ m, (LogLevel.error, m) ∈ (check_ips_in_zabbix "f.xlsx" "server.local"
        ⟨true, Except.ok ⟨["ip_address"], []⟩, ⟨"", "server.local"⟩,
         Except.ok [], Except.ok ()⟩).logs :=
  c3_bad_url "f.xlsx" "server.local"
    ⟨true, Except.ok ⟨["ip_address"], []⟩, ⟨"", "server.local"⟩,
     Except.ok [], Except.ok ()⟩ (Or.inl rfl)

/-- C4: when the frame read from the input file has no ip_address column,
the routine returns False, logs the descriptive error message, and writes
no output frame. -/
theorem c4_missing_column (excel_file zabbix_url : String) (w : World) (df0 : DataFrame)
    (hex : w.fileExists = true) (hread : w.readExcel = Except.ok df0)
    (hcol : "ip_address" ∉ df0.columns) :
    (check_ips_in_zabbix excel_file zabbix_url w).ret = false ∧
    (check_ips_in_zabbix excel_file zabbix_url w).output = none ∧
    (LogLevel.error, "Column \x27ip_address\x27 not found in the Excel file.")
      ∈ (check_ips_in_zabbix excel_file zabbix_url w).logs := by
  unfold check_ips_in_zabbix
  rw [hex, hread]
  simp [hcol]

/-- Witness for C4: a one column frame without ip_address is rejected. -/
theorem c4_missing_column_witness :
    (check_ips_in_zabbix "f.xlsx" "http://z" ⟨true, Except.ok ⟨["mac"], []⟩,
        ⟨"http", "z"⟩, Except.ok [], Except.ok ()⟩).ret = false ∧
    (check_ips_in_zabbix "f.xlsx" "http://z" ⟨true, Except.ok ⟨["mac"], []⟩,
        ⟨"http", "z"⟩, Except.ok [], Except.ok ()⟩).output = none ∧
    (LogLevel.error, "Column \x27ip_address\x27 not found in the Excel file.")
      ∈ (check_ips_in_zabbix "f.xlsx" "http://z" ⟨true, Except.ok ⟨["mac"], []⟩,
        ⟨"http", "z"⟩, Except.ok [], Except.ok ()⟩).logs :=
  c4_missing_column "f.xlsx" "http://z"
    ⟨true, Except.ok ⟨["mac"], []⟩, ⟨"http", "z"⟩, Except.ok [], Except.ok ()⟩
    ⟨["mac"], []⟩ rfl rfl (by decide)

/-- C9: the routine is a total function into RunResult (exceptions of the
external operations are World inputs consumed by the body, mirroring the
try/except that spans lines 32-106), and whenever it returns False some
error line has been logged: no failure is silently swallowed. -/
theorem c9_no_silent_failure (excel_file zabbix_url : String) (w : World)
    (h : (check_ips_in_zabbix excel_file zabbix_url w).ret = false) :
    ∃ m, (LogLevel.error, m) ∈ (check_ips_in_zabbix excel_file zabbix_url w).logs := by
  unfold check_ips_in_zabbix at h ⊢
  cases hf : w.fileExists with
  | false =>
    exact ⟨"File " ++ excel_file ++ " does not exist.", by simp⟩
  | true =>
    rw [hf] at h
    cases hr : w.readExcel with
    | error e =>
      exact ⟨"Error processing file: " ++ e, by simp⟩
    | ok df0 =>
      rw [hr] at h
      by_cases hc : "ip_address" ∈ df0.columns
      · simp only [hc, if_true] at h ⊢
        cases hv : validate_zabbix_url w.parsedUrl with
        | false =>
          exact ⟨"Invalid Zabbix URL: " ++ zabbix_url, by simp [hv]⟩
        | true =>
          rw [hv] at h
          simp only [if_true] at h ⊢
          cases hg : w.hostsGet with
          | error e =>
            exact ⟨"Error processing file: " ++ e, by simp [hg]⟩
          | ok hosts =>
            rw [hg] at h
            cases hw : w.writeExcel with
            | error e =>
              exact ⟨"Error processing file: " ++ e, by simp [hw]⟩
            | ok u =>
              rw [hw] at h
              simp at h
      · simp only [hc, if_false] at h ⊢
        exact ⟨"Column \x27ip_address\x27 not found in the Excel file.", by simp [hc]⟩

/-- Witness for C9: a world whose spreadsheet write raises still yields a
logged error with the False return. -/
theorem c9_no_silent_failure_witness :
    ∃ m, (LogLevel.error, m) ∈ (check_ips_in_zabbix "f.xlsx" "http://z"
      ⟨true, Except.ok ⟨["ip_address"], []⟩, ⟨"http", "z"⟩, Except.ok [],
       Except.error "disk full"⟩).logs :=
  c9_no_silent_failure "f.xlsx" "http://z"
    ⟨true, Except.ok ⟨["ip_address"], []⟩, ⟨"http", "z"⟩, Except.ok [],
     Except.error "disk full"⟩ (by decide)

/-! Embedding of src/sync.py: JSON values, the device fetcher and the
flattener extract_device_data. -/

/-- Json models the values the json module produces. -/
inductive Json where
  | null
  | bool (b : Bool)
  | num (n : Int)
  | str (s : String)
  | arr (elems : List Json)
  | obj (fields : List (String × Json))

/-- Lookup of a key in a JSON object field list (dict keys are unique). -/
def jlookup : List (String × Json) → String → Option Json
  | [], _ => none
  | p :: rest, key => if p.1 = key then some p.2 else jlookup rest key

/-- Python d.get(key, default): the default when the key is absent; raises
AttributeError (the error branch) when the receiver is not a dict. -/
def Json.pyGet : Json → String → Json → Except String Json
  | Json.obj fs, key, dflt => Except.ok ((jlookup fs key).getD dflt)
  | _, _, _ => Except.error "AttributeError"

/-- Python truthiness of a JSON value. -/
def Json.truthy : Json → Bool
  | Json.null => false
  | Json.bool b => b
  | Json.num n => n != 0
  | Json.str s => s != ""
  | Json.arr l => !l.isEmpty
  | Json.obj fs => !fs.isEmpty

/-- Python value.split(sep)[0] for sep a slash: the first fragment of the
split is the longest prefix free of the separator; raises AttributeError
(the error branch) when the receiver is not a string. -/
def pySplitSlashHead : Json → Except String String
  | Json.str s => Except.ok ⟨s.data.takeWhile (fun c => c ≠ '/')⟩
  | _ => Except.error "AttributeError"

/-- HttpResponse models the requests response object: status code, text,
and the value response.json() parses from the body. -/
structure HttpResponse where
  status_code : Nat
  text : String
  body : Json

/-- Lines 10-48 of src/sync.py.  The network is an oracle from the
requested URL to either a response or a transport failure
(requests.exceptions.RequestException) carrying a message.  The result
pairs the return value with the diagnostic lines printed. -/
def get_unms_devices (base_url : String)
    (http : String → Except String HttpResponse) : Option Json × List String :=
  let base := if base_url.endsWith "/" then base_url.dropRight 1 else base_url
  let endpoint := base ++ "/api/v2.1/devices"
  match http endpoint with
  | Except.ok r =>
      if r.status_code = 200 then (some r.body, [])
      else (none, ["Error: Received status code " ++ toString r.status_code,
                   "Response: " ++ r.text])
  | Except.error e => (none, ["Request failed: " ++ e])

/-- C5: the fetcher returns the parsed body exactly on status 200 with no
diagnostics; on any other status or on a transport failure it returns the
failure signal none together with a non empty diagnostic describing the
failure. -/
theorem c5_fetch (base_url : String) (http : String → Except String HttpResponse) :
    (∀ r, http ((if base_url.endsWith "/" then base_url.dropRight 1 else base_url)
          ++ "/api/v2.1/devices") = Except.ok r → r.status_code = 200 →
        get_unms_devices base_url http = (some r.body, [])) ∧
    (∀ r, http ((if base_url.endsWith "/" then base_url.dropRight 1 else base_url)
          ++ "/api/v2.1/devices") = Except.ok r → r.status_code ≠ 200 →
        get_unms_devices base_url http
          = (none, ["Error: Received status code " ++ toString r.status_code,
                    "Response: " ++ r.text])) ∧
    (∀ e, http ((if base_url.endsWith "/" then base_url.dropRight 1 else base_url)
          ++ "/api/v2.1/devices") = Except.error e →
        get_unms_devices base_url http = (none, ["Request failed: " ++ e])) := by
  refine ⟨?_, ?_, ?_⟩
  · intro r hr hs
    simp [get_unms_devices, hr, hs]
  · intro r hr hs
    simp [get_unms_devices, hr, hs]
  · intro e he
    simp [get_unms_devices, he]

/-- Witness for C5: a transport failure yields none and the diagnostic. -/
theorem c5_fetch_witness :
    get_unms_devices "https://unms.example.com"
        (fun _ => Except.error "connection refused")
      = (none, ["Request failed: connection refused"]) :=
  (c5_fetch "https://unms.example.com"
      (fun _ => Except.error "connection refused")).2.2 "connection refused" rfl

/-- ExtractedData is the dictionary built at lines 108-117: exactly the
eight fields, in source order.  JSON valued fields hold Json.null where
Python holds None; ip_address holds none where Python holds None. -/
structure ExtractedData where
  site_name : Json
  site_type : Json
  mac : Json
  name : Json
  model_name : Json
  role : Json
  status : Json
  ip_address : Option String

/-- Lines 104-119 of src/sync.py.  The repeated pure subchains of the
source (json_data.get("identification", {}) and its .get("site", {}) are
recomputed per field there) are bound once; being pure, the sharing is
semantics preserving.  Evaluation order of the dict entries is kept. -/
def extract_device_data (j : Json) : Except String ExtractedData := do
  let idn ← j.pyGet "identification" (Json.obj [])
  let site ← idn.pyGet "site" (Json.obj [])
  let sname ← site.pyGet "name" Json.null
  let stype ← site.pyGet "type" Json.null
  let macv ← idn.pyGet "mac" Json.null
  let namev ← idn.pyGet "name" Json.null
  let modelv ← idn.pyGet "modelName" Json.null
  let rolev ← idn.pyGet "role" Json.null
  let ov ← j.pyGet "overview" (Json.obj [])
  let statusv ← ov.pyGet "status" Json.null
  let ipTest ← j.pyGet "ipAddress" Json.null
  let ip ← if ipTest.truthy then do
      let raw ← j.pyGet "ipAddress" (Json.str "")
      let s ← pySplitSlashHead raw
      pure (some s)
    else pure none
  pure ⟨sname, stype, macv, namev, modelv, rolev, statusv, ip⟩

/-- Checks that a JSON value is an object. -/
def jsonIsObjB : Json → Bool
  | Json.obj _ => true
  | _ => false

/-- Checks that a JSON value is a string or null. -/
def jsonIsStrOrNullB : Json → Bool
  | Json.str _ => true
  | Json.null => true
  | _ => false

/-- Holds of an optional value that is either absent or satisfies p. -/
def optDefault (o : Option Json) (p : Json → Bool) : Bool :=
  match o with
  | some v => p v
  | none => true

/-- An identification value whose site, when present, is an object. -/
def siteWellFormed : Json → Bool
  | Json.obj gs => optDefault (jlookup gs "site") jsonIsObjB
  | _ => false

/-- Well formedness of a device record in the sense of the data model:
whatever is present has the expected shape (identification and its site
are objects, overview is an object, ipAddress is a string or null), while
any key may be missing. -/
def deviceWellFormed (fs : List (String × Json)) : Bool :=
  optDefault (jlookup fs "identification") siteWellFormed
  && optDefault (jlookup fs "overview") jsonIsObjB
  && optDefault (jlookup fs "ipAddress") jsonIsStrOrNullB

theorem ebind_ok {α β : Type} (a : α) (f : α → Except String β) :
    (Except.ok a >>= f : Except String β) = f a := rfl

theorem epure_ok {β : Type} (b : β) : (pure b : Except String β) = Except.ok b := rfl

theorem optDefault_obj (o : Option Json) (h : optDefault o jsonIsObjB = true) :
    ∃ gs, o.getD (Json.obj []) = Json.obj gs := by
  cases o with
  | none => exact ⟨[], rfl⟩
  | some v =>
    simp only [optDefault] at h
    cases v with
    | obj gs => exact ⟨gs, rfl⟩
    | null => simp [jsonIsObjB] at h
    | bool b => simp [jsonIsObjB] at h
    | num n => simp [jsonIsObjB] at h
    | str s => simp [jsonIsObjB] at h
    | arr l => simp [jsonIsObjB] at h

theorem optDefault_site (o : Option Json) (h : optDefault o siteWellFormed = true) :
    ∃ gs, o.getD (Json.obj []) = Json.obj gs
      ∧ optDefault (jlookup gs "site") jsonIsObjB = true := by
  cases o with
  | none => exact ⟨[], rfl, rfl⟩
  | some v =>
    simp only [optDefault] at h
    cases v with
    | obj gs => exact ⟨gs, rfl, by simpa [siteWellFormed] using h⟩
    | null => simp [siteWellFormed] at h
    | bool b => simp [siteWellFormed] at h
    | num n => simp [siteWellFormed] at h
    | str s => simp [siteWellFormed] at h
    | arr l => simp [siteWellFormed] at h

/-- C7: totality of the flattener on well formed device records.  Every
missing key resolves through the chain of defaults, never an exception,
and the result is an ExtractedData record, carrying exactly the eight
fields site_name, site_type, mac, name, model_name, role, status and
ip_address by construction. -/
theorem c7_total (fs : List (String × Json)) (hwf : deviceWellFormed fs = true) :
    ∃ r : ExtractedData, extract_device_data (Json.obj fs) = Except.ok r := by
  simp only [deviceWellFormed, Bool.and_eq_true] at hwf
  obtain ⟨⟨hid, hov⟩, hip⟩ := hwf
  obtain ⟨gs, hgs, hsite⟩ := optDefault_site _ hid
  obtain ⟨hs2, hhs⟩ := optDefault_obj _ hsite
  obtain ⟨os, hos⟩ := optDefault_obj _ hov
  cases hipl : jlookup fs "ipAddress" with
  | none =>
    simp only [extract_device_data, Json.pyGet, hgs, hhs, hos, hipl,
      Option.getD_none, ebind_ok, epure_ok, Json.truthy, Bool.false_eq_true,
      if_false]
    exact ⟨_, rfl⟩
  | some v =>
    rw [hipl] at hip
    simp only [optDefault] at hip
    cases v with
    | null =>
      simp only [extract_device_data, Json.pyGet, hgs, hhs, hos, hipl,
        Option.getD_some, ebind_ok, epure_ok, Json.truthy, Bool.false_eq_true,
        if_false]
      exact ⟨_, rfl⟩
    | str s =>
      by_cases hsne : s = ""
      · simp only [extract_device_data, Json.pyGet, hgs, hhs, hos, hipl, hsne,
          Option.getD_some, ebind_ok, epure_ok, Json.truthy, bne_self_eq_false,
          Bool.false_eq_true, if_false]
        exact ⟨_, rfl⟩
      · simp only [extract_device_data, Json.pyGet, hgs, hhs, hos, hipl,
          Option.getD_some, ebind_ok, epure_ok, Json.truthy, pySplitSlashHead,
          bne_iff_ne, ne_eq, hsne, not_false_eq_true, if_true]
        exact ⟨_, rfl⟩
    | bool b => simp [jsonIsStrOrNullB] at hip
    | num n => simp [jsonIsStrOrNullB] at hip
    | arr l => simp [jsonIsStrOrNullB] at hip
    | obj fs2 => simp [jsonIsStrOrNullB] at hip

/-- Witness for C7: the empty record, where every key is missing, extracts
successfully with every field at its default. -/
theorem c7_total_witness :
    ∃ r : ExtractedData, extract_device_data (Json.obj []) = Except.ok r :=
  c7_total [] rfl

/-- C6: the ip_address output of the flattener is the prefix of the raw
ipAddress string before the first slash (the first fragment of the split
on the slash) when ipAddress is present and non empty, and none when
ipAddress is missing or the empty string. -/
theorem c6_ip_extract (fs : List (String × Json)) (hwf : deviceWellFormed fs = true) :
    (∀ s : String, jlookup fs "ipAddress" = some (Json.str s) → s ≠ "" →
       ∃ r, extract_device_data (Json.obj fs) = Except.ok r ∧
         r.ip_address = some ⟨s.data.takeWhile (fun c => c ≠ '/')⟩) ∧
    ((jlookup fs "ipAddress" = none ∨ jlookup fs "ipAddress" = some (Json.str "")) →
       ∃ r, extract_device_data (Json.obj fs) = Except.ok r ∧ r.ip_address = none) := by
  simp only [deviceWellFormed, Bool.and_eq_true] at hwf
  obtain ⟨⟨hid, hov⟩, _⟩ := hwf
  obtain ⟨gs, hgs, hsite⟩ := optDefault_site _ hid
  obtain ⟨hs2, hhs⟩ := optDefault_obj _ hsite
  obtain ⟨os, hos⟩ := optDefault_obj _ hov
  constructor
  · intro s hipl hsne
    simp only [extract_device_data, Json.pyGet, hgs, hhs, hos, hipl,
      Option.getD_some, ebind_ok, epure_ok, Json.truthy, pySplitSlashHead,
      bne_iff_ne, ne_eq, hsne, not_false_eq_true, if_true]
    exact ⟨_, rfl, rfl⟩
  · intro hipl
    rcases hipl with hipl | hipl
    · simp only [extract_device_data, Json.pyGet, hgs, hhs, hos, hipl,
        Option.getD_none, ebind_ok, epure_ok, Json.truthy, Bool.false_eq_true,
        if_false]
      exact ⟨_, rfl, rfl⟩
    · simp only [extract_device_data, Json.pyGet, hgs, hhs, hos, hipl,
        Option.getD_some, ebind_ok, epure_ok, Json.truthy, bne_self_eq_false,
        Bool.false_eq_true, if_false]
      exact ⟨_, rfl, rfl⟩

/-- Witness for C6: a record whose ipAddress carries a CIDR suffix
flattens to the address before the slash. -/
theorem c6_ip_extract_witness :
    ∃ r, extract_device_data (Json.obj [("ipAddress", Json.str "10.0.0.5/24")])
        = Except.ok r ∧
      r.ip_address = some ⟨("10.0.0.5/24".data.takeWhile (fun c => c ≠ '/'))⟩ :=
  (c6_ip_extract [("ipAddress", Json.str "10.0.0.5/24")] (by decide)).1
    "10.0.0.5/24" rfl (by decide)
